import Mathlib

/-!
Verification of `scripts/generate-static-plot.py`.

The script's single function `create_sample_plots`:
1. ensures the directory `static/img/static` exists (`os.makedirs(..., exist_ok=True)`),
2. builds fixed numeric datasets and saves three PNG figures at fixed paths
   (each `plt.savefig(path, dpi=150, bbox_inches='tight')`),
3. builds a 6x15 thickness field `Z = 8.8 + 0.1*sin(X) + 0.05*cos(Y) + 0.02*randn(6,15)`,
4. prints one confirmation line.

We embed the datasets as rational lists, the thickness field as a real-valued
function of an explicit noise parameter, and the filesystem effects as an
explicit state (`Fs`) together with an event trace.
-/

namespace EuvGuide

/-! Datasets, from source lines 19-20, 32-35. -/

/-- Source line 19: `dose = np.array([10, 15, 20, 25, 30])`. -/
def dose : List ℚ := [10, 15, 20, 25, 30]

/-- Source line 20: `cd = np.array([22, 18, 16, 14, 13])`. -/
def cd : List ℚ := [22, 18, 16, 14, 13]

/-- Source line 32: `wavelength_euv = np.array([13.3, 13.5, 13.7, 13.9, 14.1])`. -/
def wavelength_euv : List ℚ := [13.3, 13.5, 13.7, 13.9, 14.1]

/-- Source line 33: `resolution_euv = np.array([22, 16, 12, 8, 5])`. -/
def resolution_euv : List ℚ := [22, 16, 12, 8, 5]

/-- Source line 34: `wavelength_duv = np.array([193, 248, 365, 436])`. -/
def wavelength_duv : List ℚ := [193, 248, 365, 436]

/-- Source line 35: `resolution_duv = np.array([45, 65, 90, 130])`. -/
def resolution_duv : List ℚ := [45, 65, 90, 130]

/-! Thickness field, from source lines 50-53.
`x = np.linspace(0, 10, 15)`, `y = np.linspace(0, 10, 6)`,
`X, Y = np.meshgrid(x, y)` gives arrays of shape (6, 15) with
`X[i][j] = x[j]` and `Y[i][j] = y[i]`, and
`Z = 8.8 + 0.1*sin(X) + 0.05*cos(Y) + 0.02*np.random.randn(6, 15)`.
The unseeded standard-normal draw is an explicit parameter `noise`. -/

/-- Entry j of `np.linspace(0, 10, 15)`: step 10/14. -/
noncomputable def xgrid (j : Fin 15) : ℝ := 10 * (j : ℕ) / 14

/-- Entry i of `np.linspace(0, 10, 6)`: step 10/5. -/
noncomputable def ygrid (i : Fin 6) : ℝ := 10 * (i : ℕ) / 5

/-- Cell (i, j) of `Z` (source line 53), for a given draw `noise` of the
6x15 standard-normal sample: row index i ranges over 6 rows, column index j
over 15 columns. -/
noncomputable def thicknessZ (noise : Fin 6 → Fin 15 → ℝ) (i : Fin 6) (j : Fin 15) : ℝ :=
  8.8 + 0.1 * Real.sin (xgrid j) + 0.05 * Real.cos (ygrid i) + 0.02 * noise i j

/-! Filesystem model. The script's side effects are directory creation
(`os.makedirs('static/img/static', exist_ok=True)`, line 15), three
`plt.savefig(path, dpi=150, bbox_inches='tight')` calls (lines 27, 45, 61)
and one `print` (line 64). The state carries which directories and files
exist, plus an environment saying which paths can be created or written
(modelling OS permissions). -/

/-- What a saved figure holds: the arrays handed to `ax.plot` / `ax.contourf`
for the figure that each `savefig` call writes. -/
inductive FileContent where
  | cdPlot (x y : List ℚ)
  | resPlot (x1 y1 x2 y2 : List ℚ)
  | heatmap (z : Fin 6 → Fin 15 → ℝ)

/-- One `plt.savefig(path, dpi=..., bbox_inches='tight')` call. -/
structure SaveCall where
  path : String
  dpi : ℕ
  bboxTight : Bool
  content : FileContent

/-- Filesystem state: existing directories and files, together with the
fixed environment of creatable directories and writable file paths. -/
structure Fs where
  dirs : String → Bool
  files : String → Option FileContent
  canCreateDir : String → Bool
  canWrite : String → Bool

attribute [ext] Fs

/-- A filesystem (OS) error, as raised by `os.makedirs` or `savefig`. -/
inductive OsError where
  | permissionError (path : String)
deriving DecidableEq

/-- The directory argument of line 15. -/
def targetDir : String := "static/img/static"

/-- Output path of the first figure (line 27). -/
def cdPath : String := "static/img/static/cd_vs_dose.png"

/-- Output path of the second figure (line 45). -/
def resPath : String := "static/img/static/resolution_vs_wavelength.png"

/-- Output path of the third figure (line 61). -/
def uniPath : String := "static/img/static/resist_uniformity_3d.png"

/-- The confirmation line printed on line 64. -/
def successMsg : String := "✅ Static plot fallbacks generated in static/img/static/"

/-- Split a character list at every slash. -/
def splitSlashAux : List Char → List Char → List (List Char)
  | [], acc => [acc.reverse]
  | c :: rest, acc =>
    if c = '/' then acc.reverse :: splitSlashAux rest []
    else splitSlashAux rest (c :: acc)

/-- Path components of a path string, split at slashes. -/
def splitSlash (s : String) : List String :=
  (splitSlashAux s.toList []).map (fun cs => String.mk cs)

/-- Join path components with slashes. -/
def joinSlash : List String → String
  | [] => ""
  | [d] => d
  | d :: rest => d ++ "/" ++ joinSlash rest

/-- The chain of ancestor directories of a path, innermost last:
for "static/img/static" this is ["static", "static/img", "static/img/static"]. -/
def ancestorDirs (p : String) : List String :=
  let cs := splitSlash p
  (List.range cs.length).map (fun k => joinSlash (cs.take (k + 1)))

/-- Semantics of `os.makedirs(p, exist_ok=True)`: create every missing
ancestor of `p`; silently succeed if nothing is missing; raise an OS error
if some missing ancestor cannot be created. -/
def makedirs (fs : Fs) (p : String) : Except OsError Fs :=
  let need := (ancestorDirs p).filter (fun d => !fs.dirs d)
  if need.all fs.canCreateDir then
    Except.ok { fs with dirs := fun d => fs.dirs d || decide (d ∈ need) }
  else
    Except.error (OsError.permissionError p)

/-- Semantics of `plt.savefig`: overwrite the file at the call's path, or
raise an OS error if that path is not writable. -/
def savefig (fs : Fs) (c : SaveCall) : Except OsError Fs :=
  if fs.canWrite c.path then
    Except.ok { fs with files := fun q => if q = c.path then some c.content else fs.files q }
  else
    Except.error (OsError.permissionError c.path)

/-- The `savefig` call of line 27 (figure of lines 17-28). -/
def cdCall : SaveCall := ⟨cdPath, 150, true, FileContent.cdPlot dose cd⟩

/-- The `savefig` call of line 45 (figure of lines 30-46). -/
def resCall : SaveCall :=
  ⟨resPath, 150, true,
    FileContent.resPlot wavelength_euv resolution_euv wavelength_duv resolution_duv⟩

/-- The `savefig` call of line 61 (figure of lines 48-62), for a given
noise draw. -/
noncomputable def uniCall (noise : Fin 6 → Fin 15 → ℝ) : SaveCall :=
  ⟨uniPath, 150, true, FileContent.heatmap (thicknessZ noise)⟩

/-- Observable events of a run, in order. -/
inductive Event where
  | mkdirEvt (path : String)
  | writeEvt (call : SaveCall)
  | printEvt (line : String)

/-- Result of a run: the filesystem afterwards, the events performed before
any failure, and the error (if any) that terminated the run. -/
structure RunResult where
  fs : Fs
  events : List Event
  err : Option OsError

/-- Shallow embedding of `create_sample_plots` (source lines 11-64): makedirs,
then the three savefig calls in source order, then the confirmation print;
the first failure aborts the rest (the script has no error handlers). -/
noncomputable def create_sample_plots (noise : Fin 6 → Fin 15 → ℝ) (fs0 : Fs) : RunResult :=
  match makedirs fs0 targetDir with
  | Except.error e => ⟨fs0, [], some e⟩
  | Except.ok fs1 =>
    match savefig fs1 cdCall with
    | Except.error e => ⟨fs1, [Event.mkdirEvt targetDir], some e⟩
    | Except.ok fs2 =>
      match savefig fs2 resCall with
      | Except.error e => ⟨fs2, [Event.mkdirEvt targetDir, Event.writeEvt cdCall], some e⟩
      | Except.ok fs3 =>
        match savefig fs3 (uniCall noise) with
        | Except.error e =>
          ⟨fs3, [Event.mkdirEvt targetDir, Event.writeEvt cdCall, Event.writeEvt resCall],
            some e⟩
        | Except.ok fs4 =>
          ⟨fs4,
            [Event.mkdirEvt targetDir, Event.writeEvt cdCall, Event.writeEvt resCall,
              Event.writeEvt (uniCall noise), Event.printEvt successMsg],
            none⟩

/-- Paths of the write events of a trace, in order. -/
def writtenPaths (evts : List Event) : List String :=
  evts.filterMap fun e =>
    match e with
    | Event.writeEvt c => some c.path
    | _ => none

/-- Lines printed to standard output during a trace, in order. -/
def printedLines (evts : List Event) : List String :=
  evts.filterMap fun e =>
    match e with
    | Event.printEvt s => some s
    | _ => none

/-- Whether an event is a print. -/
def isPrintEvent : Event → Bool
  | Event.printEvt _ => true
  | _ => false

/-- Repeated runs: `runIter noise fs k` is the result of the (k+1)-th run,
each run starting from the filesystem the previous one left behind. -/
noncomputable def runIter (noise : Fin 6 → Fin 15 → ℝ) (fs0 : Fs) : ℕ → RunResult
  | 0 => create_sample_plots noise fs0
  | k + 1 => create_sample_plots noise (runIter noise fs0 k).fs

/-- Ancestor directories of the target still missing in a state. -/
def missingDirs (fs : Fs) : List String :=
  (ancestorDirs targetDir).filter (fun d => !fs.dirs d)

/-- A state from which a run succeeds: every missing ancestor of the target
directory is creatable and the three output paths are writable. -/
def readyFs (fs : Fs) : Prop :=
  (missingDirs fs).all fs.canCreateDir = true ∧ fs.canWrite cdPath = true ∧
    fs.canWrite resPath = true ∧ fs.canWrite uniPath = true

/-- The full event trace of a successful run. -/
noncomputable def fullTrace (noise : Fin 6 → Fin 15 → ℝ) : List Event :=
  [Event.mkdirEvt targetDir, Event.writeEvt cdCall, Event.writeEvt resCall,
    Event.writeEvt (uniCall noise), Event.printEvt successMsg]

/-- Effect of one `savefig` on the filesystem alone (the written file on
success, no change when the path is not writable). -/
def applySave (fs : Fs) (c : SaveCall) : Fs :=
  if fs.canWrite c.path then
    { fs with files := fun q => if q = c.path then some c.content else fs.files q }
  else fs

/-- Run a list of `savefig` calls in order, stopping at the first failure. -/
def runCalls (fs : Fs) : List SaveCall → Except OsError Fs
  | [] => Except.ok fs
  | c :: rest =>
    match savefig fs c with
    | Except.error e => Except.error e
    | Except.ok fs1 => runCalls fs1 rest

/-- The all-zero noise draw, for concrete instantiations. -/
noncomputable def noiseZero : Fin 6 → Fin 15 → ℝ := fun _ _ => 0

/-- The all-one noise draw, for concrete instantiations. -/
noncomputable def noiseOne : Fin 6 → Fin 15 → ℝ := fun _ _ => 1

/-- An empty filesystem where everything is permitted. -/
def fsAll : Fs :=
  { dirs := fun _ => false, files := fun _ => none,
    canCreateDir := fun _ => true, canWrite := fun _ => true }

/-- An empty filesystem where nothing can be created or written. -/
def fsNone : Fs :=
  { dirs := fun _ => false, files := fun _ => none,
    canCreateDir := fun _ => false, canWrite := fun _ => false }

/-- A filesystem with all directories present where every path except the
heatmap image is writable. -/
def fsNoUni : Fs :=
  { dirs := fun _ => true, files := fun _ => none,
    canCreateDir := fun _ => true, canWrite := fun p => !(p == uniPath) }

/-! Helper lemmas about successful runs. -/

lemma run_ok (noise : Fin 6 → Fin 15 → ℝ) (fs : Fs) (h : readyFs fs) :
    (create_sample_plots noise fs).err = none ∧
    (create_sample_plots noise fs).events = fullTrace noise ∧
    (create_sample_plots noise fs).fs.dirs =
      (fun d => fs.dirs d || decide (d ∈ missingDirs fs)) ∧
    (create_sample_plots noise fs).fs.canCreateDir = fs.canCreateDir ∧
    (create_sample_plots noise fs).fs.canWrite = fs.canWrite ∧
    ∀ q, (create_sample_plots noise fs).fs.files q =
      if q = uniPath then some (FileContent.heatmap (thicknessZ noise))
      else if q = resPath then some resCall.content
      else if q = cdPath then some cdCall.content
      else fs.files q := by
  obtain ⟨hmk, h1, h2, h3⟩ := h
  rw [missingDirs] at hmk
  simp [create_sample_plots, makedirs, savefig, fullTrace, missingDirs, uniCall,
    cdCall, resCall, hmk, h1, h2, h3]

lemma run_ok_inv (noise : Fin 6 → Fin 15 → ℝ) (fs : Fs)
    (h : (create_sample_plots noise fs).err = none) : readyFs fs := by
  by_cases hmk : (missingDirs fs).all fs.canCreateDir = true
  · rw [missingDirs] at hmk
    by_cases h1 : fs.canWrite cdPath = true
    · by_cases h2 : fs.canWrite resPath = true
      · by_cases h3 : fs.canWrite uniPath = true
        · exact ⟨by rwa [missingDirs], h1, h2, h3⟩
        · exfalso
          simp [create_sample_plots, makedirs, savefig, uniCall, cdCall, resCall,
            hmk, h1, h2, h3] at h
      · exfalso
        simp [create_sample_plots, makedirs, savefig, uniCall, cdCall, resCall,
          hmk, h1, h2] at h
    · exfalso
      simp [create_sample_plots, makedirs, savefig, cdCall, hmk, h1] at h
  · exfalso
    rw [missingDirs] at hmk
    simp [create_sample_plots, makedirs, hmk] at h

lemma ready_step (noise : Fin 6 → Fin 15 → ℝ) (fs : Fs) (h : readyFs fs) :
    readyFs (create_sample_plots noise fs).fs := by
  obtain ⟨-, -, hdirs, hcc, hcw, -⟩ := run_ok noise fs h
  have hnil : missingDirs (create_sample_plots noise fs).fs = [] := by
    rw [missingDirs, List.filter_eq_nil_iff]
    intro d hd
    simp only [hdirs]
    by_cases hfd : fs.dirs d = true
    · simp [hfd]
    · have hmem : d ∈ missingDirs fs := by
        rw [missingDirs, List.mem_filter]
        exact ⟨hd, by simp [hfd]⟩
      simp [hmem]
  refine ⟨?_, ?_, ?_, ?_⟩
  · rw [hnil]; rfl
  · rw [hcw]; exact h.2.1
  · rw [hcw]; exact h.2.2.1
  · rw [hcw]; exact h.2.2.2

lemma writtenPaths_fullTrace (noise : Fin 6 → Fin 15 → ℝ) :
    writtenPaths (fullTrace noise) = [cdPath, resPath, uniPath] := by
  simp [writtenPaths, fullTrace, cdCall, resCall, uniCall]

lemma dirs_after_ok (fs : Fs) (d : String) (hd : d ∈ ancestorDirs targetDir) :
    (fs.dirs d || decide (d ∈ missingDirs fs)) = true := by
  by_cases hfd : fs.dirs d = true
  · simp [hfd]
  · have hmem : d ∈ missingDirs fs := by
      rw [missingDirs, List.mem_filter]
      exact ⟨hd, by simp [hfd]⟩
    simp [hmem]

lemma runCalls_eq_foldl (l : List SaveCall) : ∀ fs : Fs,
    (∀ c ∈ l, fs.canWrite c.path = true) →
    runCalls fs l = Except.ok (l.foldl applySave fs) := by
  induction l with
  | nil => intro fs _; rfl
  | cons c rest ih =>
    intro fs h
    have hc : fs.canWrite c.path = true := h c (List.mem_cons_self c rest)
    have happ : applySave fs c =
        { fs with files := fun q => if q = c.path then some c.content else fs.files q } := by
      rw [applySave, if_pos hc]
    rw [List.foldl_cons, runCalls]
    simp only [savefig, hc, if_true]
    rw [happ]
    exact ih _ (fun c' hc' => h c' (List.mem_cons_of_mem c hc'))

lemma applySave_comm (fs : Fs) (a b : SaveCall) (hab : a.path ≠ b.path) :
    applySave (applySave fs a) b = applySave (applySave fs b) a := by
  by_cases ha : fs.canWrite a.path = true
  · by_cases hb : fs.canWrite b.path = true
    · simp only [applySave, ha, hb, if_true]
      congr 1
      funext q
      by_cases hqa : q = a.path
      · subst hqa
        simp [hab]
      · by_cases hqb : q = b.path
        · subst hqb
          simp [Ne.symm hab]
        · simp [hqa, hqb]
    · simp [applySave, ha, hb]
  · by_cases hb : fs.canWrite b.path = true
    · simp [applySave, ha, hb]
    · simp [applySave, ha, hb]

/-! The claims. -/

/-- Claim C3: the dose-CD dataset is exactly the five pairs
`(10,22),(15,18),(20,16),(25,14),(30,13)`, the dose coordinate is strictly
increasing, and the CD coordinate strictly decreases between every two
adjacent points. -/
theorem c3_dose_cd_strictly_decreasing :
    dose.zip cd = [(10, 22), (15, 18), (20, 16), (25, 14), (30, 13)] ∧
    List.Chain' (fun a b => a < b) dose ∧
    List.Chain' (fun a b => a > b) cd := by
  refine ⟨rfl, ?_, ?_⟩ <;>
    norm_num [dose, cd, List.chain'_cons, List.chain'_singleton]

/-- Claim C4: the EUV resolution series is exactly the five pairs
`(13.3,22),(13.5,16),(13.7,12),(13.9,8),(14.1,5)`, with wavelength strictly
increasing and feature size strictly decreasing between adjacent points. -/
theorem c4_euv_resolution_strictly_decreasing :
    wavelength_euv.zip resolution_euv =
      [(13.3, 22), (13.5, 16), (13.7, 12), (13.9, 8), (14.1, 5)] ∧
    List.Chain' (fun a b => a < b) wavelength_euv ∧
    List.Chain' (fun a b => a > b) resolution_euv := by
  refine ⟨rfl, ?_, ?_⟩ <;>
    norm_num [wavelength_euv, resolution_euv, List.chain'_cons, List.chain'_singleton]

/-- Claim C10: the DUV series is exactly the four pairs
`(193,45),(248,65),(365,90),(436,130)` with feature size strictly increasing
in wavelength, and every pair of arrays plotted together (dose/cd,
wavelength_euv/resolution_euv, wavelength_duv/resolution_duv) is non-empty
and of equal length. -/
theorem c10_duv_series_and_paired_lengths :
    wavelength_duv.zip resolution_duv = [(193, 45), (248, 65), (365, 90), (436, 130)] ∧
    List.Chain' (fun a b => a < b) wavelength_duv ∧
    List.Chain' (fun a b => a < b) resolution_duv ∧
    (dose.length = cd.length ∧ dose ≠ []) ∧
    (wavelength_euv.length = resolution_euv.length ∧ wavelength_euv ≠ []) ∧
    (wavelength_duv.length = resolution_duv.length ∧ wavelength_duv ≠ []) := by
  refine ⟨rfl, ?_, ?_, ⟨rfl, by simp [dose]⟩, ⟨rfl, by simp [wavelength_euv]⟩,
      ⟨rfl, by simp [wavelength_duv]⟩⟩ <;>
    norm_num [wavelength_duv, resolution_duv, List.chain'_cons, List.chain'_singleton]

/-- Claim C2 as stated is false: a standard-normal draw can take any real
value, and for the draw that is constantly 100 the cell (0, 0) of the
thickness field deviates from 8.8 by 2.05 > 1. -/
theorem c2_counterexample_unbounded_noise :
    ∃ noise : Fin 6 → Fin 15 → ℝ, ∃ i : Fin 6, ∃ j : Fin 15,
      1 < |thicknessZ noise i j - 8.8| := by
  refine ⟨fun _ _ => 100, 0, 0, ?_⟩
  have hx : xgrid 0 = 0 := by simp [xgrid]
  have hy : ygrid 0 = 0 := by simp [ygrid]
  rw [thicknessZ, hx, hy, Real.sin_zero, Real.cos_zero]
  rw [show (8.8 : ℝ) + 0.1 * 0 + 0.05 * 1 + 0.02 * 100 - 8.8 = 2.05 by ring]
  rw [abs_of_pos (by norm_num)]
  norm_num

/-- Claim C2 amended: the thickness field has 6 rows and 15 columns, and for
every draw of the noise whose entries are bounded in magnitude by 42.5
(rather than for every possible standard-normal draw, which is unbounded),
every cell lies within 1 unit of the base value 8.8. -/
theorem c2_thickness_shape_and_bound (noise : Fin 6 → Fin 15 → ℝ)
    (hnoise : ∀ i j, |noise i j| ≤ 42.5) :
    (Fintype.card (Fin 6) = 6 ∧ Fintype.card (Fin 15) = 15) ∧
    ∀ i j, |thicknessZ noise i j - 8.8| ≤ 1 := by
  refine ⟨⟨by simp, by simp⟩, fun i j => ?_⟩
  have hs1 : -1 ≤ Real.sin (xgrid j) := Real.neg_one_le_sin _
  have hs2 : Real.sin (xgrid j) ≤ 1 := Real.sin_le_one _
  have hc1 : -1 ≤ Real.cos (ygrid i) := Real.neg_one_le_cos _
  have hc2 : Real.cos (ygrid i) ≤ 1 := Real.cos_le_one _
  have hn := abs_le.mp (hnoise i j)
  rw [thicknessZ, abs_le]
  constructor <;> nlinarith [hn.1, hn.2]

/-- Witness for the amended C2 at the all-zero noise draw. -/
theorem c2_thickness_shape_and_bound_witness :
    (Fintype.card (Fin 6) = 6 ∧ Fintype.card (Fin 15) = 15) ∧
    ∀ i j, |thicknessZ (fun _ _ => 0) i j - 8.8| ≤ 1 :=
  c2_thickness_shape_and_bound (fun _ _ => 0) (fun _ _ => by norm_num)

/-- Claim C1: after a successful run exactly the three fixed paths have been
written (each save at 150 dpi with tight bounding box, and a file exists at
each path afterwards), and every repeated run succeeds and writes exactly
these same three paths again, so for any number of runs the set of written
paths stays exactly these three. -/
theorem c1_three_files_and_overwrite (noise : Fin 6 → Fin 15 → ℝ) (fs : Fs)
    (h : (create_sample_plots noise fs).err = none) :
    writtenPaths (create_sample_plots noise fs).events = [cdPath, resPath, uniPath] ∧
    (∀ c, Event.writeEvt c ∈ (create_sample_plots noise fs).events →
      c.dpi = 150 ∧ c.bboxTight = true) ∧
    ((create_sample_plots noise fs).fs.files cdPath).isSome = true ∧
    ((create_sample_plots noise fs).fs.files resPath).isSome = true ∧
    ((create_sample_plots noise fs).fs.files uniPath).isSome = true ∧
    ∀ k, (runIter noise fs k).err = none ∧
      writtenPaths (runIter noise fs k).events = [cdPath, resPath, uniPath] := by
  have hready : readyFs fs := run_ok_inv noise fs h
  obtain ⟨-, hev, -, -, -, hfiles⟩ := run_ok noise fs hready
  have hiter : ∀ k, ((runIter noise fs k).err = none ∧
      writtenPaths (runIter noise fs k).events = [cdPath, resPath, uniPath]) ∧
      readyFs (runIter noise fs k).fs := by
    intro k
    induction k with
    | zero =>
      obtain ⟨e1, e2, -⟩ := run_ok noise fs hready
      exact ⟨⟨e1, by rw [runIter, e2, writtenPaths_fullTrace]⟩,
        ready_step noise fs hready⟩
    | succ k ih =>
      obtain ⟨e1, e2, -⟩ := run_ok noise (runIter noise fs k).fs ih.2
      exact ⟨⟨e1, by rw [runIter, e2, writtenPaths_fullTrace]⟩,
        ready_step noise _ ih.2⟩
  refine ⟨by rw [hev, writtenPaths_fullTrace], ?_, ?_, ?_, ?_, fun k => (hiter k).1⟩
  · intro c hc
    rw [hev] at hc
    rw [fullTrace] at hc
    simp only [List.mem_cons, List.mem_singleton] at hc
    rcases hc with hc | hc | hc | hc | hc | hc <;> cases hc <;> exact ⟨rfl, rfl⟩
  · rw [hfiles cdPath]
    have h1 : ¬cdPath = uniPath := by decide
    have h2 : ¬cdPath = resPath := by decide
    simp [h1, h2]
  · rw [hfiles resPath]
    have h1 : ¬resPath = uniPath := by decide
    simp [h1]
  · rw [hfiles uniPath]
    simp

/-- Witness for C1 at a concrete permissive filesystem and the zero draw. -/
theorem c1_three_files_and_overwrite_witness :
    (create_sample_plots noiseZero fsAll).err = none ∧
    writtenPaths (create_sample_plots noiseZero fsAll).events = [cdPath, resPath, uniPath] :=
  ⟨rfl, (c1_three_files_and_overwrite noiseZero fsAll rfl).1⟩

/-- Claim C5: the directory-creation step creates `static/img/static`
together with its parents when absent, succeeds silently (changing nothing)
when they already exist — so a second call is idempotent — and when some
missing ancestor cannot be created it fails with a filesystem error which
the run propagates uncaught (the run ends with that error and no events). -/
theorem c5_makedirs_create_idempotent_error :
    ancestorDirs targetDir = ["static", "static/img", "static/img/static"] ∧
    (∀ fs : Fs, (missingDirs fs).all fs.canCreateDir = true →
      ∃ fs1, makedirs fs targetDir = Except.ok fs1 ∧
        (∀ d ∈ ancestorDirs targetDir, fs1.dirs d = true) ∧
        fs1.files = fs.files ∧
        ∃ fs2, makedirs fs1 targetDir = Except.ok fs2 ∧
          fs2.dirs = fs1.dirs ∧ fs2.files = fs1.files) ∧
    (∀ fs : Fs,
      (∃ d ∈ ancestorDirs targetDir, fs.dirs d = false ∧ fs.canCreateDir d = false) →
      makedirs fs targetDir = Except.error (OsError.permissionError targetDir) ∧
      ∀ noise, (create_sample_plots noise fs).err =
          some (OsError.permissionError targetDir) ∧
        (create_sample_plots noise fs).events = []) := by
  refine ⟨by decide, ?_, ?_⟩
  · intro fs hmk
    rw [missingDirs] at hmk
    refine ⟨{ fs with dirs := fun d => fs.dirs d || decide (d ∈ missingDirs fs) },
      ?_, ?_, rfl, ?_⟩
    · simp [makedirs, missingDirs, hmk]
    · intro d hd
      exact dirs_after_ok fs d hd
    · have hnil : ((ancestorDirs targetDir).filter
          (fun d => !(fs.dirs d || decide (d ∈ missingDirs fs)))) = [] := by
        rw [List.filter_eq_nil_iff]
        intro d hd
        simp [dirs_after_ok fs d hd]
      have key : makedirs
          { fs with dirs := fun d => fs.dirs d || decide (d ∈ missingDirs fs) } targetDir =
          Except.ok { fs with dirs := fun d =>
            (fs.dirs d || decide (d ∈ missingDirs fs)) || decide (d ∈ ([] : List String)) } := by
        simp only [makedirs, hnil]
        rfl
      refine ⟨_, key, ?_, rfl⟩
      funext d
      simp
  · intro fs ⟨d, hd, hdf, hcf⟩
    have hall : (missingDirs fs).all fs.canCreateDir = false := by
      rcases hall : (missingDirs fs).all fs.canCreateDir with _ | _
      · rfl
      · exfalso
        have := List.all_eq_true.mp hall d
          (by rw [missingDirs, List.mem_filter]; exact ⟨hd, by simp [hdf]⟩)
        rw [hcf] at this
        cases this
    rw [missingDirs] at hall
    constructor
    · simp [makedirs, hall]
    · intro noise
      constructor <;> simp [create_sample_plots, makedirs, hall]

/-- Witness for C5: creation from an empty permissive filesystem succeeds,
and from a fully locked-down filesystem it returns the permission error. -/
theorem c5_makedirs_create_idempotent_error_witness :
    (∃ fs1, makedirs fsAll targetDir = Except.ok fs1 ∧
      (∀ d ∈ ancestorDirs targetDir, fs1.dirs d = true) ∧
      fs1.files = fsAll.files ∧
      ∃ fs2, makedirs fs1 targetDir = Except.ok fs2 ∧
        fs2.dirs = fs1.dirs ∧ fs2.files = fs1.files) ∧
    makedirs fsNone targetDir = Except.error (OsError.permissionError targetDir) :=
  ⟨c5_makedirs_create_idempotent_error.2.1 fsAll rfl,
    (c5_makedirs_create_idempotent_error.2.2 fsNone ⟨"static", by decide, rfl, rfl⟩).1⟩

/-- Claim C6: the script has no error handling — a run succeeds exactly when
directory creation and all three writes can succeed, so any failure
propagates as the run's terminating error — and there is no transactionality:
when only the third image's write fails, the first two images are on disk
with their rendered contents while the third path is untouched. -/
theorem c6_failures_propagate_no_transactionality :
    (∀ (noise : Fin 6 → Fin 15 → ℝ) (fs : Fs),
      (create_sample_plots noise fs).err = none ↔ readyFs fs) ∧
    (∀ (noise : Fin 6 → Fin 15 → ℝ) (fs : Fs),
      (missingDirs fs).all fs.canCreateDir = true →
      fs.canWrite cdPath = true → fs.canWrite resPath = true →
      fs.canWrite uniPath = false →
      (create_sample_plots noise fs).err = some (OsError.permissionError uniPath) ∧
      (create_sample_plots noise fs).fs.files cdPath = some cdCall.content ∧
      (create_sample_plots noise fs).fs.files resPath = some resCall.content ∧
      (create_sample_plots noise fs).fs.files uniPath = fs.files uniPath) := by
  constructor
  · intro noise fs
    exact ⟨run_ok_inv noise fs, fun h => (run_ok noise fs h).1⟩
  · intro noise fs hmk h1 h2 h3
    rw [missingDirs] at hmk
    have hcd : ¬cdPath = resPath := by decide
    have hur : ¬uniPath = resPath := by decide
    have huc : ¬uniPath = cdPath := by decide
    refine ⟨?_, ?_, ?_, ?_⟩ <;>
      simp [create_sample_plots, makedirs, savefig, cdCall, resCall, uniCall,
        hmk, h1, h2, h3, hcd, hur, huc]

/-- Witness for C6: with every directory present and only the heatmap path
unwritable, the run ends with that path's permission error while the first
two images are on disk. -/
theorem c6_failures_propagate_no_transactionality_witness :
    (create_sample_plots noiseZero fsNoUni).err =
      some (OsError.permissionError uniPath) ∧
    (create_sample_plots noiseZero fsNoUni).fs.files cdPath = some cdCall.content ∧
    (create_sample_plots noiseZero fsNoUni).fs.files resPath = some resCall.content ∧
    (create_sample_plots noiseZero fsNoUni).fs.files uniPath = fsNoUni.files uniPath :=
  c6_failures_propagate_no_transactionality.2 noiseZero fsNoUni rfl rfl rfl rfl

/-- Claim C7: the three rendering steps are order-insensitive: when the three
output paths are writable (the successful case), running the three `savefig`
calls in any permuted order after directory creation produces the same
result, and in particular the same final filesystem contents, as the source
order; only the order of the writes (which file lands first) differs. -/
theorem c7_rendering_steps_order_insensitive (noise : Fin 6 → Fin 15 → ℝ) (fs : Fs)
    (h1 : fs.canWrite cdPath = true) (h2 : fs.canWrite resPath = true)
    (h3 : fs.canWrite uniPath = true)
    (l : List SaveCall) (hperm : l.Perm [cdCall, resCall, uniCall noise]) :
    runCalls fs l = runCalls fs [cdCall, resCall, uniCall noise] := by
  have hpaths : ∀ c ∈ l, fs.canWrite c.path = true := by
    intro c hc
    have hc' : c ∈ [cdCall, resCall, uniCall noise] := hperm.mem_iff.mp hc
    simp only [List.mem_cons, List.mem_singleton, List.not_mem_nil, or_false] at hc'
    rcases hc' with rfl | rfl | rfl
    · exact h1
    · exact h2
    · exact h3
  rw [runCalls_eq_foldl l fs hpaths,
    runCalls_eq_foldl [cdCall, resCall, uniCall noise] fs
      (by intro c hc
          simp only [List.mem_cons, List.mem_singleton, List.not_mem_nil, or_false] at hc
          rcases hc with rfl | rfl | rfl
          · exact h1
          · exact h2
          · exact h3)]
  congr 1
  refine hperm.foldl_eq' ?_ fs
  intro x hx y hy z
  have hx' : x ∈ [cdCall, resCall, uniCall noise] := hperm.mem_iff.mp hx
  have hy' : y ∈ [cdCall, resCall, uniCall noise] := hperm.mem_iff.mp hy
  simp only [List.mem_cons, List.mem_singleton, List.not_mem_nil, or_false] at hx' hy'
  have hcr : cdPath ≠ resPath := by decide
  have hcu : cdPath ≠ uniPath := by decide
  have hru : resPath ≠ uniPath := by decide
  rcases hx' with rfl | rfl | rfl <;> rcases hy' with rfl | rfl | rfl
  · rfl
  · exact applySave_comm z _ _ hcr
  · exact applySave_comm z _ _ hcu
  · exact applySave_comm z _ _ hcr.symm
  · rfl
  · exact applySave_comm z _ _ hru
  · exact applySave_comm z _ _ hcu.symm
  · exact applySave_comm z _ _ hru.symm
  · rfl

/-- Witness for C7: swapping the first two rendering steps yields the same
result as the source order. -/
theorem c7_rendering_steps_order_insensitive_witness :
    runCalls fsAll [resCall, cdCall, uniCall noiseZero] =
      runCalls fsAll [cdCall, resCall, uniCall noiseZero] :=
  c7_rendering_steps_order_insensitive noiseZero fsAll rfl rfl rfl _
    (List.Perm.swap cdCall resCall [uniCall noiseZero])

/-- Claim C8: apart from the noise term of the thickness field, behaviour is
determined by fixed literals: two runs from the same state with any two noise
draws give the same error outcome, written paths, console lines, directories
and file contents away from the heatmap path; and the noise term itself is
not fixed by the source (no seed), so two draws can give different thickness
fields. -/
theorem c8_deterministic_except_noise :
    (∀ (fs : Fs) (n1 n2 : Fin 6 → Fin 15 → ℝ),
      (create_sample_plots n1 fs).err = (create_sample_plots n2 fs).err ∧
      writtenPaths (create_sample_plots n1 fs).events =
        writtenPaths (create_sample_plots n2 fs).events ∧
      printedLines (create_sample_plots n1 fs).events =
        printedLines (create_sample_plots n2 fs).events ∧
      (create_sample_plots n1 fs).fs.dirs = (create_sample_plots n2 fs).fs.dirs ∧
      ∀ q, q ≠ uniPath →
        (create_sample_plots n1 fs).fs.files q = (create_sample_plots n2 fs).fs.files q) ∧
    (∃ (n1 n2 : Fin 6 → Fin 15 → ℝ) (i : Fin 6) (j : Fin 15),
      thicknessZ n1 i j ≠ thicknessZ n2 i j) := by
  constructor
  · intro fs n1 n2
    by_cases hmk :
        ((ancestorDirs targetDir).filter (fun d => !fs.dirs d)).all fs.canCreateDir = true <;>
      by_cases h1 : fs.canWrite cdPath = true <;>
      by_cases h2 : fs.canWrite resPath = true <;>
      by_cases h3 : fs.canWrite uniPath = true <;>
      refine ⟨?_, ?_, ?_, ?_, fun q hq => ?_⟩ <;>
      first
        | simp [create_sample_plots, makedirs, savefig, cdCall, resCall, uniCall,
            writtenPaths, printedLines, hmk, h1, h2, h3, hq]
        | simp [create_sample_plots, makedirs, savefig, cdCall, resCall, uniCall,
            writtenPaths, printedLines, hmk, h1, h2, h3]
  · refine ⟨fun _ _ => 0, fun _ _ => 1, 0, 0, fun h => ?_⟩
    simp only [thicknessZ] at h
    linarith

/-- Witness for C8: the dose-CD file written by two runs with different noise
draws is the same. -/
theorem c8_deterministic_except_noise_witness :
    (create_sample_plots noiseZero fsAll).fs.files cdPath =
      (create_sample_plots noiseOne fsAll).fs.files cdPath :=
  (c8_deterministic_except_noise.1 fsAll noiseZero noiseOne).2.2.2.2 cdPath (by decide)

/-- Claim C9: a successful run prints exactly one confirmation line, and the
print is the final event of the run, after all three write events: the trace
splits as a print-free segment containing exactly the three writes, followed
by the single confirmation print. -/
theorem c9_one_confirmation_line_after_writes (noise : Fin 6 → Fin 15 → ℝ) (fs : Fs)
    (h : (create_sample_plots noise fs).err = none) :
    printedLines (create_sample_plots noise fs).events = [successMsg] ∧
    ∃ pre, (create_sample_plots noise fs).events = pre ++ [Event.printEvt successMsg] ∧
      (∀ e ∈ pre, isPrintEvent e = false) ∧
      writtenPaths pre = [cdPath, resPath, uniPath] := by
  have hready := run_ok_inv noise fs h
  obtain ⟨-, hev, -⟩ := run_ok noise fs hready
  rw [hev]
  refine ⟨by simp [printedLines, fullTrace],
    [Event.mkdirEvt targetDir, Event.writeEvt cdCall, Event.writeEvt resCall,
      Event.writeEvt (uniCall noise)],
    by simp [fullTrace], ?_, by simp [writtenPaths, cdCall, resCall, uniCall]⟩
  intro e he
  simp only [List.mem_cons, List.mem_singleton, List.not_mem_nil, or_false] at he
  rcases he with rfl | rfl | rfl | rfl <;> rfl

/-- Witness for C9 at a concrete successful run. -/
theorem c9_one_confirmation_line_after_writes_witness :
    printedLines (create_sample_plots noiseZero fsAll).events = [successMsg] :=
  (c9_one_confirmation_line_after_writes noiseZero fsAll rfl).1

end EuvGuide
